import Mathlib

/-!
Shallow embedding of the bno055-rx driver (src/bno055.ts, src/constants.ts):
the int16 codec, the register-trace of the initialization and calibration
routines, and the error handling of block reads, together with theorems
checking the specification's claims against them.
-/

namespace Bno055

/-! Register addresses and fixed values, from src/constants.ts. -/

def BNO055_ID : Nat := 0xA0

def CHIP_ID : Nat := 0x00

def PAGE_ID : Nat := 0x07

def CALIB_STAT : Nat := 0x35

def SELFTEST_RESULT : Nat := 0x36

def OPR_MODE : Nat := 0x3D

def SYS_TRIGGER : Nat := 0x3F

def ACCEL_OFFSET_START : Nat := 0x55

def ACCEL_OFFSET_X_LSB : Nat := 0x55

def ACCEL_OFFSET_X_MSB : Nat := 0x56

def ACCEL_OFFSET_Y_LSB : Nat := 0x57

def ACCEL_OFFSET_Y_MSB : Nat := 0x58

def ACCEL_OFFSET_Z_LSB : Nat := 0x59

def ACCEL_OFFSET_Z_MSB : Nat := 0x5A

/-- As in src/constants.ts line 156: the magnetometer offset block start is
given the value 0x55, although the per-field magnetometer offset registers
that follow start at 0x5B. -/
def MAG_OFFSET_START : Nat := 0x55

def MAG_OFFSET_X_LSB : Nat := 0x5B

def MAG_OFFSET_X_MSB : Nat := 0x5C

def MAG_OFFSET_Y_LSB : Nat := 0x5D

def MAG_OFFSET_Y_MSB : Nat := 0x5E

def MAG_OFFSET_Z_LSB : Nat := 0x5F

def MAG_OFFSET_Z_MSB : Nat := 0x60

/-- As in src/constants.ts line 165: the gyroscope offset block start is
given the value 0x55, although the per-field gyroscope offset registers
that follow start at 0x61. -/
def GYRO_OFFSET_START : Nat := 0x55

def GYRO_OFFSET_X_LSB : Nat := 0x61

def GYRO_OFFSET_X_MSB : Nat := 0x62

def GYRO_OFFSET_Y_LSB : Nat := 0x63

def GYRO_OFFSET_Y_MSB : Nat := 0x64

def GYRO_OFFSET_Z_LSB : Nat := 0x65

def GYRO_OFFSET_Z_MSB : Nat := 0x66

def ACCEL_RADIUS_LSB : Nat := 0x67

def ACCEL_RADIUS_MSB : Nat := 0x68

def MAG_RADIUS_LSB : Nat := 0x69

def MAG_RADIUS_MSB : Nat := 0x6A

def ADDRESS_A : Nat := 0x28

def SYSTEM_TRIGGER_RESET : Nat := 0x20

def OPERATION_MODE_CONFIG : Nat := 0x00

def OPERATION_MODE_ACCONLY : Nat := 0x01

def OPERATION_MODE_MAGONLY : Nat := 0x02

def OPERATION_MODE_GYRONLY : Nat := 0x03

def OPERATION_MODE_ACCMAG : Nat := 0x04

def OPERATION_MODE_ACCGYRO : Nat := 0x05

def OPERATION_MODE_MAGGYRO : Nat := 0x06

def OPERATION_MODE_AMG : Nat := 0x07

def OPERATION_MODE_IMUPLUS : Nat := 0x08

def OPERATION_MODE_COMPASS : Nat := 0x09

def OPERATION_MODE_M4G : Nat := 0x0A

def OPERATION_MODE_NDOF_FMC_OFF : Nat := 0x0B

def OPERATION_MODE_NDOF : Nat := 0x0C

/-! JavaScript operator semantics used by the codec. -/

/-- JavaScript logical AND on numbers: returns the left operand when it is
falsy (zero), otherwise the right operand. This is the operator literally
written in int16ToLsb and int16ToMsb in src/bno055.ts. -/
def jsAnd (a b : Int) : Int :=
  if a = 0 then a else b

/-- JavaScript bitwise AND, restricted to the nonnegative operands on which
the driver uses it. -/
def jsBitAnd (a b : Int) : Int :=
  ((a.toNat &&& b.toNat : Nat) : Int)

/-- JavaScript signed right shift, restricted to the nonnegative left
operands on which the driver uses it. -/
def jsShr (a : Int) (n : Nat) : Int :=
  ((a.toNat >>> n : Nat) : Int)

/-! The int16 codec, from src/bno055.ts lines 453-480. -/

/-- fromInt16 of src/bno055.ts: if the sign bit of the combined 16-bit word
is set, convert to a negative value by subtracting 0x10000. -/
def fromInt16 (int16 : Nat) : Int :=
  if 0x8000 &&& int16 ≠ 0 then
    (int16 : Int) - 0x10000
  else
    (int16 : Int)

/-- The decode path used throughout src/bno055.ts: combine MSB and LSB as
(msb shifted left 8) or-ed with lsb, then sign-extend with fromInt16. -/
def decodeInt16 (lsb msb : Nat) : Int :=
  fromInt16 ((msb <<< 8) ||| lsb)

/-- int16ToLsb of src/bno055.ts: on a negative input the source computes
(int16 plus 0x10000) followed by the logical AND operator with 0xff. -/
def int16ToLsb (int16 : Int) : Int :=
  if int16 < 0 then
    jsAnd (int16 + 0x10000) 0xff
  else
    jsBitAnd int16 0xff

/-- int16ToMsb of src/bno055.ts: on a negative input the source computes
(int16 plus 0x10000) shifted right 8, followed by the logical AND operator
with 0xff. -/
def int16ToMsb (int16 : Int) : Int :=
  if int16 < 0 then
    jsAnd (jsShr (int16 + 0x10000) 8) 0xff
  else
    jsBitAnd (jsShr int16 8) 0xff

/-- Encoding an int16 with both byte encoders and decoding the pair back. -/
def int16RoundTrip (v : Int) : Int :=
  decodeInt16 (int16ToLsb v).toNat (int16ToMsb v).toNat

/-! Vector decoding, from src/bno055.ts lines 432-439. -/

structure Vector3 where
  x : ℚ
  y : ℚ
  z : ℚ
deriving DecidableEq, Repr

/-- bufferToVector of src/bno055.ts: X, Y and Z are consecutive int16
fields, LSB then MSB, each divided by the divisor. -/
def bufferToVector (buffer : List Nat) (divisor : ℚ) : Vector3 :=
  { x := (decodeInt16 (buffer.getD 0 0) (buffer.getD 1 0) : ℚ) / divisor
    y := (decodeInt16 (buffer.getD 2 0) (buffer.getD 3 0) : ℚ) / divisor
    z := (decodeInt16 (buffer.getD 4 0) (buffer.getD 5 0) : ℚ) / divisor }

/-! Operating modes and the mode-register value table,
from src/bno055.ts lines 40-45 and 361-374. -/

inductive Bno055ModeWithConfig where
  | config
  | acconly
  | magonly
  | gyronly
  | accmag
  | accgyro
  | maggyro
  | amg
  | imuplus
  | compass
  | m4g
  | ndof_fmc_off
  | ndof
deriving DecidableEq, Repr

/-- The conditional cascade at the top of setMode in src/bno055.ts,
selecting the byte written to the mode register. -/
def modeValue (mode : Bno055ModeWithConfig) : Nat :=
  match mode with
  | .accgyro => OPERATION_MODE_ACCGYRO
  | .accmag => OPERATION_MODE_ACCMAG
  | .acconly => OPERATION_MODE_ACCONLY
  | .amg => OPERATION_MODE_AMG
  | .compass => OPERATION_MODE_COMPASS
  | .gyronly => OPERATION_MODE_GYRONLY
  | .imuplus => OPERATION_MODE_IMUPLUS
  | .m4g => OPERATION_MODE_M4G
  | .maggyro => OPERATION_MODE_MAGGYRO
  | .magonly => OPERATION_MODE_MAGONLY
  | .ndof => OPERATION_MODE_NDOF
  | .ndof_fmc_off => OPERATION_MODE_NDOF_FMC_OFF
  | .config => OPERATION_MODE_CONFIG

/-! Traces of bus actions issued by the initialization and calibration
routines of src/bno055.ts. A write records the register and the value, a
wait records the duration of the timer the routine subscribes to, and an
awaitCalibrationPart records the launch of one calibration poller with its
bitmask (the pollers run until their mask is satisfied; their stopping
behaviour is modelled separately below). -/

inductive Action where
  | write (register : Nat) (value : Int)
  | wait (ms : Nat)
  | awaitCalibrationPart (bitsToCheck : Nat)
deriving DecidableEq, Repr

/-- delay of src/bno055.ts lines 234-236: the body subscribes to
timerObservable(1000) and ignores its elements, regardless of the
delayInMs argument. -/
def delayTrace (delayInMs : Nat) : List Action :=
  [Action.wait 1000]

/-- setMode of src/bno055.ts lines 361-380: one write of the mode value to
the OPR_MODE register, then the delay helper called with 30. -/
def setModeTrace (mode : Bno055ModeWithConfig) : List Action :=
  [Action.write OPR_MODE (modeValue mode)] ++ delayTrace 30

/-- awaitCalibration of src/bno055.ts lines 192-202: switch to
ndof_fmc_off mode, then merge the four subsystem pollers with bitmasks
0x03, 0x0C, 0x30 and 0xC0. -/
def awaitCalibrationTrace : List Action :=
  setModeTrace .ndof_fmc_off ++
    [Action.awaitCalibrationPart 0x03,
     Action.awaitCalibrationPart 0x0C,
     Action.awaitCalibrationPart 0x30,
     Action.awaitCalibrationPart 0xC0]

/-! The calibration monitor, from src/bno055.ts lines 181-202. Each poller
reads the CALIB_STAT byte on successive ticks and finishes at the first
reading whose bitmask is fully set; the merge finishes when all four
pollers have finished. The successive CALIB_STAT readings are modelled as
a list of bytes indexed by poll tick. -/

/-- The tick at which one subsystem poller stops: the first index in the
poll sequence whose byte has all the bits of bitsToCheck set, as decided
by the takeWhile predicate of awaitCalibrationPart. -/
def partCompletesAt (bitsToCheck : Nat) (polls : List Nat) : Option Nat :=
  polls.findIdx? (fun byte => byte &&& bitsToCheck == bitsToCheck)

/-- The tick at which the whole calibration monitor completes: all four
subsystem pollers must have stopped, and the merge finishes when the last
of them does. -/
def monitorCompletesAt (polls : List Nat) : Option Nat :=
  match partCompletesAt 0x03 polls, partCompletesAt 0x0C polls,
      partCompletesAt 0x30 polls, partCompletesAt 0xC0 polls with
  | some m, some a, some g, some s => some (max (max m a) (max g s))
  | _, _, _, _ => none

/-! Self test, from src/bno055.ts lines 220-226. -/

inductive SelfTestOutcome where
  | passed
  | selfTestFailed (observed : Nat)
deriving DecidableEq, Repr

/-- confirmSelfTest of src/bno055.ts: after reading the SELFTEST_RESULT
byte, succeed when its low 4 bits are all set, otherwise raise an error
carrying the observed byte. -/
def confirmSelfTest (byte : Nat) : SelfTestOutcome :=
  if byte &&& 0xF = 0xF then
    SelfTestOutcome.passed
  else
    SelfTestOutcome.selfTestFailed byte

/-! Block reads, from src/bno055.ts lines 94-108. -/

/-- The outcome the bus transport reports to the readI2cBlock callback: an
optional error, the number of bytes read, and the filled buffer. -/
structure TransportResult where
  err : Option Nat
  bytesRead : Nat
  buffer : List Nat
deriving DecidableEq, Repr

inductive ReadError where
  | transport (err : Nat)
  | shortRead (expected received : Nat)
deriving DecidableEq, Repr

/-- readBytes of src/bno055.ts: a transport error propagates; otherwise a
byte count different from the requested length raises the incorrect-number
-of-bytes error carrying the expected and received counts; otherwise the
buffer is emitted. -/
def readBytes (register : Nat) (length : Nat) (result : TransportResult) :
    Except ReadError (List Nat) :=
  match result.err with
  | some e => Except.error (ReadError.transport e)
  | none =>
    if result.bytesRead ≠ length then
      Except.error (ReadError.shortRead length result.bytesRead)
    else
      Except.ok result.buffer

/-! Calibration-data retrieval, from src/bno055.ts lines 306-318: a zip of
three vector reads and two number reads, taking one combined element. Each
vector read is a 6-byte block read at its start register; each number read
is a 2-byte block read at its LSB register. -/

structure BlockRead where
  register : Nat
  length : Nat
deriving DecidableEq, Repr

/-- The block reads issued by readCalibration, in the order the zip
subscribes to them. -/
def readCalibrationReads : List BlockRead :=
  [{ register := ACCEL_OFFSET_START, length := 6 },
   { register := ACCEL_RADIUS_LSB, length := 2 },
   { register := GYRO_OFFSET_START, length := 6 },
   { register := MAG_OFFSET_START, length := 6 },
   { register := MAG_RADIUS_LSB, length := 2 }]

/-! Writing user-supplied calibration data,
from src/bno055.ts lines 383-418. -/

structure Vector3i where
  x : Int
  y : Int
  z : Int
deriving DecidableEq, Repr

structure Bno055CalibrationData where
  accelerometerOffset : Vector3i
  accelerometerRadius : Int
  gyroscopeOffset : Vector3i
  magnetometerOffset : Vector3i
  magnetometerRadius : Int
deriving DecidableEq, Repr

/-- writeCalibrationData of src/bno055.ts: the 22 single-byte writes, in
source order. -/
def writeCalibrationDataTrace (calibrationData : Bno055CalibrationData) :
    List Action :=
  [Action.write ACCEL_OFFSET_X_LSB (int16ToLsb calibrationData.accelerometerOffset.x),
   Action.write ACCEL_OFFSET_X_MSB (int16ToMsb calibrationData.accelerometerOffset.x),
   Action.write ACCEL_OFFSET_Y_LSB (int16ToLsb calibrationData.accelerometerOffset.y),
   Action.write ACCEL_OFFSET_Y_MSB (int16ToMsb calibrationData.accelerometerOffset.y),
   Action.write ACCEL_OFFSET_Z_LSB (int16ToLsb calibrationData.accelerometerOffset.z),
   Action.write ACCEL_OFFSET_Z_MSB (int16ToMsb calibrationData.accelerometerOffset.z),
   Action.write ACCEL_RADIUS_LSB (int16ToLsb calibrationData.accelerometerRadius),
   Action.write ACCEL_RADIUS_MSB (int16ToMsb calibrationData.accelerometerRadius),
   Action.write GYRO_OFFSET_X_LSB (int16ToLsb calibrationData.gyroscopeOffset.x),
   Action.write GYRO_OFFSET_X_MSB (int16ToMsb calibrationData.gyroscopeOffset.x),
   Action.write GYRO_OFFSET_Y_LSB (int16ToLsb calibrationData.gyroscopeOffset.y),
   Action.write GYRO_OFFSET_Y_MSB (int16ToMsb calibrationData.gyroscopeOffset.y),
   Action.write GYRO_OFFSET_Z_LSB (int16ToLsb calibrationData.gyroscopeOffset.z),
   Action.write GYRO_OFFSET_Z_MSB (int16ToMsb calibrationData.gyroscopeOffset.z),
   Action.write MAG_OFFSET_X_LSB (int16ToLsb calibrationData.magnetometerOffset.x),
   Action.write MAG_OFFSET_X_MSB (int16ToMsb calibrationData.magnetometerOffset.x),
   Action.write MAG_OFFSET_Y_LSB (int16ToLsb calibrationData.magnetometerOffset.y),
   Action.write MAG_OFFSET_Y_MSB (int16ToMsb calibrationData.magnetometerOffset.y),
   Action.write MAG_OFFSET_Z_LSB (int16ToLsb calibrationData.magnetometerOffset.z),
   Action.write MAG_OFFSET_Z_MSB (int16ToMsb calibrationData.magnetometerOffset.z),
   Action.write MAG_RADIUS_LSB (int16ToLsb calibrationData.magnetometerRadius),
   Action.write MAG_RADIUS_MSB (int16ToMsb calibrationData.magnetometerRadius)]

/-- setOrAwaitCalibrationData of src/bno055.ts: write the supplied
calibration data, or await hardware calibration when none was supplied. -/
def setOrAwaitCalibrationDataTrace
    (calibrationData : Option Bno055CalibrationData) : List Action :=
  match calibrationData with
  | some cd => writeCalibrationDataTrace cd
  | none => awaitCalibrationTrace

/-- The eleven 16-bit calibration fields in the order stated by the
specification, each with its LSB register, its MSB register and its value:
accelerometer offset X, Y, Z, accelerometer radius, gyroscope offset X, Y,
Z, magnetometer offset X, Y, Z, magnetometer radius. Used to compare the
flat write trace against the field-ordered layout the specification
describes. -/
def calibrationFieldLayout (calibrationData : Bno055CalibrationData) :
    List (Nat × Nat × Int) :=
  [(ACCEL_OFFSET_X_LSB, ACCEL_OFFSET_X_MSB, calibrationData.accelerometerOffset.x),
   (ACCEL_OFFSET_Y_LSB, ACCEL_OFFSET_Y_MSB, calibrationData.accelerometerOffset.y),
   (ACCEL_OFFSET_Z_LSB, ACCEL_OFFSET_Z_MSB, calibrationData.accelerometerOffset.z),
   (ACCEL_RADIUS_LSB, ACCEL_RADIUS_MSB, calibrationData.accelerometerRadius),
   (GYRO_OFFSET_X_LSB, GYRO_OFFSET_X_MSB, calibrationData.gyroscopeOffset.x),
   (GYRO_OFFSET_Y_LSB, GYRO_OFFSET_Y_MSB, calibrationData.gyroscopeOffset.y),
   (GYRO_OFFSET_Z_LSB, GYRO_OFFSET_Z_MSB, calibrationData.gyroscopeOffset.z),
   (MAG_OFFSET_X_LSB, MAG_OFFSET_X_MSB, calibrationData.magnetometerOffset.x),
   (MAG_OFFSET_Y_LSB, MAG_OFFSET_Y_MSB, calibrationData.magnetometerOffset.y),
   (MAG_OFFSET_Z_LSB, MAG_OFFSET_Z_MSB, calibrationData.magnetometerOffset.z),
   (MAG_RADIUS_LSB, MAG_RADIUS_MSB, calibrationData.magnetometerRadius)]

/-! Address defaulting in the constructor, src/bno055.ts line 77: the
JavaScript expression (options.address or-else ADDRESS_A), where the
logical OR takes the default when the address is absent or zero (falsy). -/

/-- The bus address the session uses, from the optional constructor
address. -/
def effectiveAddress (address : Option Nat) : Nat :=
  match address with
  | none => ADDRESS_A
  | some a => if a = 0 then ADDRESS_A else a

end Bno055

namespace Bno055

/-- C1: encoding a negative int16 with the LSB and MSB encoders and decoding
the pair does not yield the value back: at v equal to minus 16, both
encoders return 0xFF because the source uses the JavaScript logical AND
where a bitwise AND was intended, and the pair decodes to minus 1. -/
theorem int16_roundtrip_fails_at_neg16 :
    int16ToLsb (-16) = 0xFF ∧ int16ToMsb (-16) = 0xFF ∧
      int16RoundTrip (-16) = -1 ∧ int16RoundTrip (-16) ≠ -16 := by
  decide

/-- C7: the 6-byte buffer 10 00 F0 FF 64 00 with divisor 100 decodes to the
vector with x equal to 0.16, y equal to minus 0.16 and z equal to 1, the Y
field 0xFFF0 being interpreted as the two's-complement value minus 16. -/
theorem vector_decode_example :
    bufferToVector [0x10, 0x00, 0xF0, 0xFF, 0x64, 0x00] 100 =
      { x := 0.16, y := -0.16, z := 1.00 } ∧
      decodeInt16 0xF0 0xFF = -16 := by
  constructor
  · show Vector3.mk _ _ _ = _
    norm_num [bufferToVector, decodeInt16, fromInt16,
      show (32768 &&& 16 : Nat) = 0 from rfl,
      show (32768 &&& (255 <<< 8 ||| 240) : Nat) = 32768 from rfl,
      show (32768 &&& 100 : Nat) = 0 from rfl,
      show ((255 <<< 8 ||| 240 : Nat) : Int) = 65520 from rfl]
  · decide

/-- C2: calibration-data retrieval does issue five reads, but the
gyroscope and magnetometer offset block reads are issued at register 0x55
— the GYRO_OFFSET_START and MAG_OFFSET_START constants duplicate the
accelerometer offset start — not at the individual addresses 0x61 and
0x5B stated by the claim. -/
theorem readCalibration_reads_shared_offset_start :
    readCalibrationReads.map BlockRead.register =
      [0x55, 0x67, 0x55, 0x55, 0x69] ∧
      readCalibrationReads.length = 5 ∧
      GYRO_OFFSET_START ≠ 0x61 ∧ MAG_OFFSET_START ≠ 0x5B := by
  decide

/-- C3: a mode switch is one write of the mode value to the mode register
followed by a wait, but the wait lasts 1000 ms, not 30 ms: the delay
helper ignores its argument and always subscribes to a 1000 ms timer, as
the switch to config mode shows. -/
theorem setMode_waits_1000ms :
    delayTrace 30 = [Action.wait 1000] ∧
      setModeTrace .config =
        [Action.write OPR_MODE OPERATION_MODE_CONFIG, Action.wait 1000] ∧
      Action.wait 30 ∉ setModeTrace .config := by
  decide

/-- C4: the self-test step succeeds exactly when the low 4 bits of the
observed byte are all set, fails with an error carrying the observed byte
otherwise, and in particular 0x0F passes while 0x07 fails. -/
theorem confirmSelfTest_iff_low_nibble_set (byte : Nat) :
    (confirmSelfTest byte = SelfTestOutcome.passed ↔ byte &&& 0xF = 0xF) ∧
      (byte &&& 0xF ≠ 0xF →
        confirmSelfTest byte = SelfTestOutcome.selfTestFailed byte) ∧
      confirmSelfTest 0x0F = SelfTestOutcome.passed ∧
      confirmSelfTest 0x07 = SelfTestOutcome.selfTestFailed 0x07 := by
  refine ⟨?_, ?_, by decide, by decide⟩
  · unfold confirmSelfTest
    constructor
    · intro h
      by_contra hn
      simp [hn] at h
    · intro h
      simp [h]
  · intro h
    simp [confirmSelfTest, h]

/-- Witness for C4 at the concrete byte 0x07: the failure branch of the
theorem applied at a byte whose low nibble is not all set. -/
theorem confirmSelfTest_iff_low_nibble_set_witness :
    confirmSelfTest 0x07 = SelfTestOutcome.selfTestFailed 0x07 :=
  (confirmSelfTest_iff_low_nibble_set 0x07).2.1 (by decide)

/-- C5: on the poll sequence 0x00, 0x03, 0x0F, 0x3F, 0xFF the four
subsystem pollers with masks 0x03, 0x0C, 0x30 and 0xC0 stop at ticks 1,
2, 3 and 4 respectively, so the monitor completes exactly at the 0xFF
reading (tick 4) and is not complete on any shorter prefix. -/
theorem calibrationMonitor_completes_at_ff :
    partCompletesAt 0x03 [0x00, 0x03, 0x0F, 0x3F, 0xFF] = some 1 ∧
      partCompletesAt 0x0C [0x00, 0x03, 0x0F, 0x3F, 0xFF] = some 2 ∧
      partCompletesAt 0x30 [0x00, 0x03, 0x0F, 0x3F, 0xFF] = some 3 ∧
      partCompletesAt 0xC0 [0x00, 0x03, 0x0F, 0x3F, 0xFF] = some 4 ∧
      monitorCompletesAt [0x00, 0x03, 0x0F, 0x3F, 0xFF] = some 4 ∧
      monitorCompletesAt [0x00, 0x03, 0x0F, 0x3F] = none ∧
      monitorCompletesAt [0x00, 0x03, 0x0F] = none ∧
      monitorCompletesAt [0x00, 0x03] = none ∧
      monitorCompletesAt [0x00] = none := by
  decide

/-- C8: a block read propagates a transport error as a transport error;
when the transport reports no error but fewer bytes than requested, the
read fails with the short-read error carrying the expected and received
counts — an error distinct from any transport error — and never yields a
buffer. -/
theorem readBytes_short_and_transport_errors (register n : Nat)
    (result : TransportResult) :
    (∀ e, result.err = some e →
      readBytes register n result = Except.error (ReadError.transport e)) ∧
      (result.err = none → result.bytesRead < n →
        readBytes register n result =
            Except.error (ReadError.shortRead n result.bytesRead) ∧
          (∀ e, readBytes register n result ≠
            Except.error (ReadError.transport e)) ∧
          ∀ buffer, readBytes register n result ≠ Except.ok buffer) := by
  constructor
  · intro e he
    simp [readBytes, he]
  · intro hnone hlt
    have hne : result.bytesRead ≠ n := Nat.ne_of_lt hlt
    refine ⟨by simp [readBytes, hnone, hne], ?_, ?_⟩
    · intro e
      simp [readBytes, hnone, hne]
    · intro buffer
      simp [readBytes, hnone, hne]

/-- Witness for C8: a 6-byte read at the accelerometer offset block that
receives only 4 bytes fails with the short-read error, and one whose
transport reports error code 5 fails with the transport error. -/
theorem readBytes_short_and_transport_errors_witness :
    readBytes 0x55 6 { err := none, bytesRead := 4, buffer := [1, 2, 3, 4] } =
        Except.error (ReadError.shortRead 6 4) ∧
      readBytes 0x55 6 { err := some 5, bytesRead := 6, buffer := [] } =
        Except.error (ReadError.transport 5) :=
  ⟨((readBytes_short_and_transport_errors 0x55 6
      { err := none, bytesRead := 4, buffer := [1, 2, 3, 4] }).2
      rfl (by decide)).1,
    (readBytes_short_and_transport_errors 0x55 6
      { err := some 5, bytesRead := 6, buffer := [] }).1 5 rfl⟩

/-- C9: with calibration data supplied, initialization issues exactly the
22 single-byte writes, LSB then MSB for each of the eleven fields, in the
field order accelerometer offset X, Y, Z, accelerometer radius, gyroscope
offset X, Y, Z, magnetometer offset X, Y, Z, magnetometer radius; with no
calibration data it instead switches to ndof_fmc_off mode and launches the
four-poller calibration monitor. -/
theorem setOrAwaitCalibrationData_spec (cd : Bno055CalibrationData) :
    setOrAwaitCalibrationDataTrace (some cd) =
        (calibrationFieldLayout cd).flatMap
          (fun field =>
            [Action.write field.1 (int16ToLsb field.2.2),
             Action.write field.2.1 (int16ToMsb field.2.2)]) ∧
      (setOrAwaitCalibrationDataTrace (some cd)).length = 22 ∧
      setOrAwaitCalibrationDataTrace none =
        setModeTrace .ndof_fmc_off ++
          [Action.awaitCalibrationPart 0x03,
           Action.awaitCalibrationPart 0x0C,
           Action.awaitCalibrationPart 0x30,
           Action.awaitCalibrationPart 0xC0] := by
  refine ⟨rfl, rfl, rfl⟩

/-- C10: the constructor's address defaulting treats an explicit address
of zero the same as an absent address: the session address is 0x28 for
address zero or no address, and the given address whenever it is
non-zero. -/
theorem effectiveAddress_defaults_zero :
    effectiveAddress (some 0) = 0x28 ∧
      effectiveAddress none = 0x28 ∧
      ∀ a, a ≠ 0 → effectiveAddress (some a) = a := by
  refine ⟨by decide, by decide, ?_⟩
  intro a ha
  simp [effectiveAddress, ha]

/-- Witness for C10 at the non-zero alternate device address 0x29. -/
theorem effectiveAddress_defaults_zero_witness :
    effectiveAddress (some 0x29) = 0x29 :=
  effectiveAddress_defaults_zero.2.2 0x29 (by decide)

end Bno055
